import Mathlib

/-!
Shallow embedding of the ai-compliance-system core (TypeScript/JavaScript):
the violation detection checks (infrastructure-monitor / violation-detector)
and the SOAR automation engine (soar-automation): trigger matching, the
playbook step executor, the incident store and the execution ledger.

Modelling conventions, used throughout:
- JS strings stay String; the string-literal union types of the source
  (severity levels, statuses, step types, channels) are modelled as String,
  exactly as they are at runtime.
- new Date() is modelled by a strictly increasing Nat clock carried in the
  state: each call returns the current clock value and advances it (wall
  time is strictly monotone across successive observations).
- uuidv4() is modelled by a fresh-name counter carried in the state.
- JS Map objects are modelled as association lists in insertion order:
  set of a new key appends, set of an existing key replaces in place.
- Fallible JS code (a thrown TypeError) is modelled with Except; the state
  component is always returned, since JS heap mutations survive a throw.
- The unbounded while loop of the step executor is modelled with explicit
  fuel; running out of fuel (RunResult.fuelOut) models divergence.
- Opaque payload fields never examined by any modelled operation
  (evidence blobs, remediation payloads, requirementId/controlId,
  console output, the delay sleep) are elided; the fresh ids and dates
  drawn while building the elided payloads are not modelled either.
-/

/-- A JS runtime value as it appears in a step condition: the source
compares condition.value with === (strict equality, no coercion). -/
inductive JSValue where
  | str (s : String)
  | bool (b : Bool)
  | num (n : Int)
  | undef
deriving DecidableEq

/-- Violation record (src/unnamed/part_006, interface Violation); opaque
payload fields (evidence, remediation, requirementId, controlId) elided. -/
structure Violation where
  id : String
  policyId : String
  policyName : String
  assetId : String
  assetType : String
  assetIdentifier : String
  severity : String
  status : String
  title : String
  description : String
  detectedAt : Nat
  updatedAt : Nat
  resolvedAt : Option Nat
deriving DecidableEq

/-- Certificate facts consumed by the checks (interface CertificateInfo);
metadata fields not read by any modelled check are elided. -/
structure CertificateInfo where
  domain : String
  isValid : Bool
  daysUntilExpiry : Int
deriving DecidableEq

/-- Result of checkCertificateExpiry (infrastructure-monitor.js). -/
structure ExpiryCheck where
  isExpiring : Bool
  daysLeft : Int
  severity : String
deriving DecidableEq

/-- InfrastructureMonitor.checkCertificateExpiry
(src/dist/core/infrastructure-monitor.js lines 261-275). -/
def checkCertificateExpiry (cert : CertificateInfo) : ExpiryCheck :=
  let daysLeft := cert.daysUntilExpiry
  if daysLeft ≤ 7 then ⟨true, daysLeft, "critical"⟩
  else if daysLeft ≤ 30 then ⟨true, daysLeft, "high"⟩
  else if daysLeft ≤ 60 then ⟨true, daysLeft, "medium"⟩
  else ⟨false, daysLeft, "low"⟩

/-- Policy, reduced to the fields read by the detector (find by framework,
attach id and name). -/
structure Policy where
  id : String
  name : String
  framework : String
deriving DecidableEq

/-- Mutable state of a ViolationDetector instance: the violations map,
plus the clock and fresh-id counter of the modelling conventions. -/
structure DetectorState where
  violations : List (String × Violation)
  clock : Nat
  nextId : Nat
deriving DecidableEq

/-- uuidv4() draw against a DetectorState. -/
def dFreshUuid (st : DetectorState) : String × DetectorState :=
  ("uuid-" ++ toString st.nextId, { st with nextId := st.nextId + 1 })

/-- new Date() against a DetectorState. -/
def dNewDate (st : DetectorState) : Nat × DetectorState :=
  (st.clock, { st with clock := st.clock + 1 })

/-- Map.set on the violations map for a key already present: the source
mutates the stored object in place, so every entry under the key is
replaced and insertion order is unchanged. -/
def dSetViolation (v : Violation) (st : DetectorState) : DetectorState :=
  { st with violations :=
      st.violations.map (fun kv => if kv.1 == v.id then (kv.1, v) else kv) }

/-- JS expr (policy?.id || fallback): undefined and the empty string are
falsy, so both fall through to the fallback. -/
def jsOrElse (s : Option String) (fallback : String) : String :=
  match s with
  | none => fallback
  | some v => if v == "" then fallback else v

/-- ViolationDetector.checkCertificate (src/unnamed/part_004 lines 215-282).
Builds the expiry violation when the expiry check fires, then the
invalid-certificate violation when isValid is false. -/
def checkCertificate (cert : CertificateInfo) (policies : List Policy)
    (st : DetectorState) : List Violation × DetectorState :=
  let expiryCheck := checkCertificateExpiry cert
  let (l1, st1) :=
    if expiryCheck.isExpiring then
      let policy := policies.find? (fun p => p.framework == "SOC2")
      let (vid, s1) := dFreshUuid st
      let (t1, s2) := dNewDate s1
      let (t2, s3) := dNewDate s2
      ([{ id := vid
          policyId := jsOrElse (policy.map Policy.id) "system"
          policyName := jsOrElse (policy.map Policy.name) "Certificate Policy"
          assetId := cert.domain
          assetType := "certificate"
          assetIdentifier := cert.domain
          severity := expiryCheck.severity
          status := "open"
          title := "Certificate Expiring in " ++ toString expiryCheck.daysLeft ++ " Days"
          description := "SSL/TLS certificate for " ++ cert.domain ++ " will expire in "
            ++ toString expiryCheck.daysLeft ++ " days. Immediate renewal is required."
          detectedAt := t1
          updatedAt := t2
          resolvedAt := none : Violation }], s3)
    else ([], st)
  let (l2, st2) :=
    if !cert.isValid then
      let (vid, s1) := dFreshUuid st1
      let (t1, s2) := dNewDate s1
      let (t2, s3) := dNewDate s2
      ([{ id := vid
          policyId := "system"
          policyName := "Certificate Policy"
          assetId := cert.domain
          assetType := "certificate"
          assetIdentifier := cert.domain
          severity := "critical"
          status := "open"
          title := "Invalid SSL/TLS Certificate"
          description := "SSL/TLS certificate for " ++ cert.domain
            ++ " is invalid. This may cause security warnings and service disruptions."
          detectedAt := t1
          updatedAt := t2
          resolvedAt := none : Violation }], s3)
    else ([], st1)
  (l1 ++ l2, st2)

/-- ViolationDetector.getViolation. -/
def getViolation (id : String) (st : DetectorState) : Option Violation :=
  (st.violations.find? (fun kv => kv.1 == id)).map (fun kv => kv.2)

/-- ViolationDetector.updateViolationStatus (src/unnamed/part_004 lines
466-479): sets the requested status unconditionally, refreshes updatedAt,
and additionally stamps resolvedAt when the new status is resolved. -/
def updateViolationStatus (id : String) (status : String) (st : DetectorState) :
    Option Violation × DetectorState :=
  match getViolation id st with
  | none => (none, st)
  | some violation =>
    let (t1, st1) := dNewDate st
    let v1 := { violation with status := status, updatedAt := t1 }
    if status == "resolved" then
      let (t2, st2) := dNewDate st1
      let v2 := { v1 with resolvedAt := some t2 }
      (some v2, dSetViolation v2 st2)
    else
      (some v1, dSetViolation v1 st1)

/-- Notification payload of a step (StepConfig.notification). The source
type declares template as a string, but at runtime the field can be
absent; the handler then calls .replace on undefined and throws, which is
the uncaught-error source of the engine, so template is an Option here. -/
structure NotificationConfig where
  channel : String
  template : Option String
  recipients : List String
deriving DecidableEq

/-- Condition payload of a step (StepConfig.condition). -/
structure ConditionConfig where
  field : String
  operator : String
  value : JSValue
deriving DecidableEq

/-- Delay payload of a step (StepConfig.delay). -/
structure DelayConfig where
  seconds : Nat
deriving DecidableEq

/-- Remediation payload of a step (StepConfig.remediation). -/
structure RemediationConfig where
  script : String
  parameters : List (String × String)
deriving DecidableEq

/-- StepConfig (src/unnamed/part_006): one optional payload per step kind. -/
structure StepConfig where
  action : Option String
  notification : Option NotificationConfig
  remediation : Option RemediationConfig
  condition : Option ConditionConfig
  delay : Option DelayConfig
deriving DecidableEq

/-- PlaybookStep (src/unnamed/part_006). -/
structure PlaybookStep where
  id : String
  name : String
  type : String
  config : StepConfig
  onSuccess : Option String
  onFailure : Option String
deriving DecidableEq

/-- Trigger conditions of a playbook (PlaybookTrigger.conditions). -/
structure TriggerConditions where
  severity : Option (List String)
  assetType : Option (List String)
  policyId : Option String
deriving DecidableEq

/-- PlaybookTrigger (src/unnamed/part_006). -/
structure PlaybookTrigger where
  type : String
  conditions : TriggerConditions
deriving DecidableEq

/-- Playbook (src/unnamed/part_006). -/
structure Playbook where
  id : String
  name : String
  description : String
  trigger : PlaybookTrigger
  steps : List PlaybookStep
  enabled : Bool
  lastRun : Option Nat
deriving DecidableEq

/-- IncidentEvent (src/unnamed/part_006); the optional structured data
payload is modelled as an opaque optional string. -/
structure IncidentEvent where
  id : String
  type : String
  description : String
  actor : String
  timestamp : Nat
  data : Option String
deriving DecidableEq

/-- Incident (src/unnamed/part_006). The priority is an Option because
severityToPriority is a switch without default and yields undefined on an
unknown severity string. -/
structure Incident where
  id : String
  title : String
  description : String
  severity : String
  status : String
  priority : Option String
  assignee : Option String
  reporter : String
  violationIds : List String
  timeline : List IncidentEvent
  createdAt : Nat
  updatedAt : Nat
  resolvedAt : Option Nat
deriving DecidableEq

/-- Execution ledger entry (executionHistory element of SOARAutomation). -/
structure ExecutionRecord where
  playbookId : String
  executedAt : Nat
  result : String
deriving DecidableEq

/-- Mutable state of a SOARAutomation instance: the playbooks map, the
incidents map, the execution ledger, plus the clock and fresh-id counter
of the modelling conventions. -/
structure SOARState where
  playbooks : List Playbook
  incidents : List (String × Incident)
  executionHistory : List ExecutionRecord
  clock : Nat
  nextId : Nat
deriving DecidableEq

/-- uuidv4() draw against a SOARState. -/
def freshUuid (st : SOARState) : String × SOARState :=
  ("uuid-" ++ toString st.nextId, { st with nextId := st.nextId + 1 })

/-- new Date() against a SOARState. -/
def newDate (st : SOARState) : Nat × SOARState :=
  (st.clock, { st with clock := st.clock + 1 })

/-- Map.set on the incidents map for a key already present (the source
mutates the stored object in place). -/
def setIncident (inc : Incident) (st : SOARState) : SOARState :=
  { st with incidents :=
      st.incidents.map (fun kv => if kv.1 == inc.id then (kv.1, inc) else kv) }

/-- SOARAutomation.getIncident. -/
def getIncident (id : String) (st : SOARState) : Option Incident :=
  (st.incidents.find? (fun kv => kv.1 == id)).map (fun kv => kv.2)

/-- SOARAutomation.getAllIncidents: the values of the incidents map in
insertion order. -/
def getAllIncidents (st : SOARState) : List Incident :=
  st.incidents.map (fun kv => kv.2)

/-- SOARAutomation.getPlaybook. -/
def getPlaybook (id : String) (st : SOARState) : Option Playbook :=
  st.playbooks.find? (fun p => p.id == id)

/-- SOARAutomation.severityToPriority: a switch without default, so an
unknown severity yields undefined. -/
def severityToPriority (severity : String) : Option String :=
  match severity with
  | "critical" => some "P1"
  | "high" => some "P2"
  | "medium" => some "P3"
  | "low" => some "P4"
  | "info" => some "P4"
  | _ => none

/-- SOARAutomation.createIncidentFromViolation (src/unnamed/part_001 lines
376-401): builds the incident with a fresh id, a seeded created event and
three date observations (event timestamp, createdAt, updatedAt), and
appends it to the incidents map. -/
def createIncidentFromViolation (violation : Violation) (st : SOARState) :
    Incident × SOARState :=
  let priority := severityToPriority violation.severity
  let (iid, st1) := freshUuid st
  let (eid, st2) := freshUuid st1
  let (t1, st3) := newDate st2
  let (t2, st4) := newDate st3
  let (t3, st5) := newDate st4
  let incident : Incident :=
    { id := iid
      title := violation.title
      description := violation.description
      severity := violation.severity
      status := "open"
      priority := priority
      assignee := none
      reporter := "ComplianceAgent"
      violationIds := [violation.id]
      timeline := [⟨eid, "created", "Incident created from violation",
                    "ComplianceAgent", t1, none⟩]
      createdAt := t2
      updatedAt := t3
      resolvedAt := none }
  (incident, { st5 with incidents := st5.incidents ++ [(iid, incident)] })

/-- SOARAutomation.addIncidentEvent: appends an event to the timeline and
refreshes updatedAt (two date observations, in source order). -/
def addIncidentEvent (inc : Incident) (type : String) (description : String)
    (actor : String) (data : Option String) (st : SOARState) :
    Incident × SOARState :=
  let (eid, st1) := freshUuid st
  let (t1, st2) := newDate st1
  let (t2, st3) := newDate st2
  let inc2 := { inc with
    timeline := inc.timeline ++ [⟨eid, type, description, actor, t1, data⟩]
    updatedAt := t2 }
  (inc2, setIncident inc2 st3)

/-- Result object of a step handler; data carries the id of the incident
returned by a create_incident action (the source carries the object, but
the engine binds and reads it only through the incidents map). -/
structure StepResult where
  success : Bool
  data : Option String
deriving DecidableEq

/-- The incident reference bound in a run, resolved against the map. The
source binds the object itself; binding the id is equivalent because
incidents are never removed during a run. -/
def boundIncident (incId : Option String) (st : SOARState) : Option Incident :=
  incId.bind (fun i => getIncident i st)

/-- SOARAutomation.executeAction (src/unnamed/part_001 lines 261-295). -/
def executeAction (step : PlaybookStep) (violation : Violation)
    (incId : Option String) (st : SOARState) : StepResult × SOARState :=
  match step.config.action with
  | some "create_incident" =>
    let (newIncident, st1) := createIncidentFromViolation violation st
    ({ success := true, data := some newIncident.id }, st1)
  | some "update_status" =>
    match boundIncident incId st with
    | some inc =>
      let (t, st1) := newDate st
      let inc2 := { inc with status := "investigating", updatedAt := t }
      let st2 := setIncident inc2 st1
      let (_, st3) := addIncidentEvent inc2 "status_change"
        "Status updated to investigating" "ComplianceAgent" none st2
      ({ success := true, data := none }, st3)
    | none => ({ success := false, data := none }, st)
  | some "assign" =>
    match boundIncident incId st with
    | some inc =>
      let (t, st1) := newDate st
      let inc2 := { inc with assignee := some "security-team", updatedAt := t }
      let st2 := setIncident inc2 st1
      let (_, st3) := addIncidentEvent inc2 "assignment"
        "Assigned to security team" "ComplianceAgent" none st2
      ({ success := true, data := none }, st3)
    | none => ({ success := false, data := none }, st)
  | some "escalate" =>
    match boundIncident incId st with
    | some inc =>
      let (t, st1) := newDate st
      let inc2 := { inc with priority := some "P1", updatedAt := t }
      let st2 := setIncident inc2 st1
      let (_, st3) := addIncidentEvent inc2 "escalation"
        "Incident escalated to P1" "ComplianceAgent" none st2
      ({ success := true, data := none }, st3)
    | none => ({ success := false, data := none }, st)
  | _ => ({ success := false, data := none }, st)

/-- Template placeholders of executeNotification. The braces of the
source placeholders are escaped per the hex escapes of Lean strings. -/
def placeholderTitle : String := "\x7b\x7bviolation.title\x7d\x7d"

/-- Placeholder for the violation description. -/
def placeholderDescription : String := "\x7b\x7bviolation.description\x7d\x7d"

/-- Placeholder for the violation severity. -/
def placeholderSeverity : String := "\x7b\x7bviolation.severity\x7d\x7d"

/-- Placeholder for the incident id. -/
def placeholderIncidentId : String := "\x7b\x7bincident.id\x7d\x7d"

/-- The message construction of executeNotification; String.replace
replaces every occurrence where the JS replace with a string pattern
replaces only the first, a difference immaterial here (no template in the
repository repeats a placeholder). -/
def renderMessage (template : String) (violation : Violation)
    (incId : Option String) (st : SOARState) : String :=
  let withInc := match boundIncident incId st with
    | some inc => inc.id
    | none => "N/A"
  ((((template.replace placeholderTitle violation.title).replace
      placeholderDescription violation.description).replace
      placeholderSeverity violation.severity).replace
      placeholderIncidentId withInc)

/-- SOARAutomation.executeNotification (src/unnamed/part_001 lines
299-328): no notification payload reports failure; a payload without a
template throws (TypeError on undefined.replace); otherwise the message is
rendered, dispatch is a console side effect, and the handler reports
success. -/
def executeNotification (step : PlaybookStep) (violation : Violation)
    (incId : Option String) (st : SOARState) :
    Except Unit StepResult × SOARState :=
  match step.config.notification with
  | none => (Except.ok { success := false, data := none }, st)
  | some ntf =>
    match ntf.template with
    | none => (Except.error (), st)
    | some tpl =>
      let _ := renderMessage tpl violation incId st
      (Except.ok { success := true, data := none }, st)

/-- SOARAutomation.executeDelay: missing payload reports failure; the
sleep itself is a real-time effect outside the model. -/
def executeDelay (step : PlaybookStep) : StepResult :=
  match step.config.delay with
  | none => { success := false, data := none }
  | some _ => { success := true, data := none }

/-- SOARAutomation.executeCondition (src/unnamed/part_001 lines 343-361):
resolves the named field and compares with strict equality. -/
def executeCondition (step : PlaybookStep) (violation : Violation)
    (incId : Option String) (st : SOARState) : StepResult :=
  match step.config.condition with
  | none => { success := false, data := none }
  | some condition =>
    let value : JSValue :=
      match condition.field with
      | "acknowledged" =>
        match boundIncident incId st with
        | some inc => JSValue.bool inc.assignee.isSome
        | none => JSValue.bool false
      | "severity" => JSValue.str violation.severity
      | _ => JSValue.undef
    let isMatch := decide (value = condition.value)
    { success := isMatch, data := none }

/-- SOARAutomation.executeRemediation: missing payload reports failure;
actual script execution is delegated and the handler reports success. -/
def executeRemediation (step : PlaybookStep) : StepResult :=
  match step.config.remediation with
  | none => { success := false, data := none }
  | some _ => { success := true, data := none }

/-- SOARAutomation.executeStep (src/unnamed/part_001 lines 242-257):
dispatch on the step type string; an unknown type reports success. -/
def executeStep (step : PlaybookStep) (violation : Violation)
    (incId : Option String) (st : SOARState) :
    Except Unit StepResult × SOARState :=
  match step.type with
  | "action" =>
    let (r, st1) := executeAction step violation incId st
    (Except.ok r, st1)
  | "notification" => executeNotification step violation incId st
  | "delay" => (Except.ok (executeDelay step), st)
  | "condition" => (Except.ok (executeCondition step violation incId st), st)
  | "remediation" => (Except.ok (executeRemediation step), st)
  | _ => (Except.ok { success := true, data := none }, st)

/-- Outcome of the step-walk loop of executePlaybook: normal exit with the
bound incident, a throw escaping the loop, or exhausted fuel (modelling a
loop that never exits). -/
inductive RunResult where
  | ok (incident : Option String)
  | raised
  | fuelOut
deriving DecidableEq

/-- The initial currentStepId of executePlaybook: playbook.steps[0]?.id. -/
def startStepId (p : Playbook) : Option String :=
  p.steps.head?.map PlaybookStep.id

/-- The while loop of SOARAutomation.executePlaybook (src/unnamed/part_001
lines 205-220), with explicit fuel. The loop guard is JS truthiness of
currentStepId, so the empty string also ends the loop; a step id that
resolves to no step breaks out of the loop. After each handler the next
step id follows onSuccess or onFailure, and a create_incident action step
rebinds the run incident to the handler result. -/
def runSteps (fuel : Nat) (playbook : Playbook) (violation : Violation)
    (currentStepId : Option String) (incident : Option String)
    (st : SOARState) : RunResult × SOARState :=
  match fuel with
  | 0 => (RunResult.fuelOut, st)
  | Nat.succ fuel1 =>
    match currentStepId with
    | none => (RunResult.ok incident, st)
    | some sid =>
      if sid == "" then (RunResult.ok incident, st)
      else
        match playbook.steps.find? (fun s => s.id == sid) with
        | none => (RunResult.ok incident, st)
        | some step =>
          match executeStep step violation incident st with
          | (Except.error _, st1) => (RunResult.raised, st1)
          | (Except.ok result, st1) =>
            let nextStepId := if result.success then step.onSuccess else step.onFailure
            let incident2 :=
              if step.type == "action" && step.config.action == some "create_incident"
              then result.data else incident
            runSteps fuel1 playbook violation nextStepId incident2 st1

/-- Map.set of lastRun on the playbooks map (playbook.lastRun = new Date()
mutates the object held by the map). -/
def setLastRun (pid : String) (t : Nat) (pbs : List Playbook) : List Playbook :=
  pbs.map (fun q => if q.id == pid then { q with lastRun := some t } else q)

/-- SOARAutomation.executePlaybook (src/unnamed/part_001 lines 201-238):
runs the step walk from the first step; on normal exit it appends a
success ledger entry, stamps lastRun and returns the bound incident; on a
throw it appends a failure ledger entry and returns null, leaving lastRun
untouched. A first component of none models a walk that never exits. -/
def executePlaybook (fuel : Nat) (playbook : Playbook) (violation : Violation)
    (st : SOARState) : Option (Option String) × SOARState :=
  match runSteps fuel playbook violation (startStepId playbook) none st with
  | (RunResult.fuelOut, st1) => (none, st1)
  | (RunResult.ok inc, st1) =>
    let (t1, st2) := newDate st1
    let st3 := { st2 with executionHistory :=
      st2.executionHistory ++ [⟨playbook.id, t1, "success"⟩] }
    let (t2, st4) := newDate st3
    let st5 := { st4 with playbooks := setLastRun playbook.id t2 st4.playbooks }
    (some inc, st5)
  | (RunResult.raised, st1) =>
    let (t1, st2) := newDate st1
    let st3 := { st2 with executionHistory :=
      st2.executionHistory ++ [⟨playbook.id, t1, "failure"⟩] }
    (some none, st3)

/-- SOARAutomation.shouldTrigger (src/unnamed/part_001 lines 174-197):
non-violation triggers never fire; then the three predicates are checked
conjunctively, with JS falsiness on each guard (an absent or empty
severity or asset-type list is skipped, an absent or empty policyId is
skipped). -/
def shouldTrigger (playbook : Playbook) (violation : Violation) : Bool :=
  if playbook.trigger.type != "violation" then false
  else
    let conditions := playbook.trigger.conditions
    let sevOk := match conditions.severity with
      | none => true
      | some l => if l.length > 0 then l.contains violation.severity else true
    let assetOk := match conditions.assetType with
      | none => true
      | some l => if l.length > 0 then l.contains violation.assetType else true
    let polOk := match conditions.policyId with
      | none => true
      | some pid => if pid != "" then violation.policyId == pid else true
    sevOk && assetOk && polOk

/-- The loop body of SOARAutomation.executePlaybooks over a list of
playbooks: skip disabled playbooks, run triggered ones, collect non-null
incidents. A first component of none models a playbook run that never
exits (and therefore an executePlaybooks call that never returns). -/
def execLoop (fuel : Nat) (pbs : List Playbook) (violation : Violation)
    (st : SOARState) : Option (List String) × SOARState :=
  match pbs with
  | [] => (some [], st)
  | p :: rest =>
    if !p.enabled then execLoop fuel rest violation st
    else if shouldTrigger p violation then
      match executePlaybook fuel p violation st with
      | (none, st1) => (none, st1)
      | (some inc, st1) =>
        match execLoop fuel rest violation st1 with
        | (none, st2) => (none, st2)
        | (some incs, st2) =>
          match inc with
          | some i => (some (i :: incs), st2)
          | none => (some incs, st2)
    else execLoop fuel rest violation st

/-- SOARAutomation.executePlaybooks (src/unnamed/part_001 lines 157-170).
The source iterates the live values of the playbooks map; a run mutates
only the lastRun field of existing playbooks, so iterating the initial
snapshot is equivalent. -/
def executePlaybooks (fuel : Nat) (violation : Violation) (st : SOARState) :
    Option (List String) × SOARState :=
  execLoop fuel st.playbooks violation st

/-- Shallow merge payload of SOARAutomation.updateIncident, restricted to
the fields any modelled caller merges; Object.assign overwrites exactly
the keys present in the payload. -/
structure IncidentUpdate where
  status : Option String
  assignee : Option String
  priority : Option String
deriving DecidableEq

/-- Object.assign(incident, updates) for an IncidentUpdate payload. -/
def applyUpdate (inc : Incident) (u : IncidentUpdate) : Incident :=
  { inc with
    status := u.status.getD inc.status
    assignee := match u.assignee with
      | some a => some a
      | none => inc.assignee
    priority := match u.priority with
      | some p => some p
      | none => inc.priority }

/-- SOARAutomation.updateIncident (src/unnamed/part_001 lines 454-461):
shallow merge plus an updatedAt refresh; no timeline event is appended. -/
def updateIncident (id : String) (updates : IncidentUpdate) (st : SOARState) :
    Option Incident × SOARState :=
  match getIncident id st with
  | none => (none, st)
  | some incident =>
    let (t, st1) := newDate st
    let inc2 := { applyUpdate incident updates with updatedAt := t }
    (some inc2, setIncident inc2 st1)

/-- SOARAutomation.getExecutionHistory (src/unnamed/part_001 lines
498-500): executionHistory.slice(-limit). For a positive limit this is
the suffix of the most recent limit entries; for limit 0, slice(-0) is
slice(0), the whole array. -/
def getExecutionHistory (st : SOARState) (limit : Nat) : List ExecutionRecord :=
  if limit == 0 then st.executionHistory
  else st.executionHistory.drop (st.executionHistory.length - limit)

/-- getExecutionHistory at its JS default argument (limit = 10). -/
def getExecutionHistoryDefault (st : SOARState) : List ExecutionRecord :=
  getExecutionHistory st 10

/-- Modelled from the spec wording of the trigger predicate, for
comparison with shouldTrigger: the severity set is absent or empty or
contains the severity, the asset-type set is absent or empty or contains
the asset type, and the policyId is absent or equals the policyId of the
violation exactly. -/
def shouldTriggerSpec (playbook : Playbook) (violation : Violation) : Bool :=
  (match playbook.trigger.conditions.severity with
   | none => true
   | some l => l.isEmpty || l.contains violation.severity) &&
  (match playbook.trigger.conditions.assetType with
   | none => true
   | some l => l.isEmpty || l.contains violation.assetType) &&
  (match playbook.trigger.conditions.policyId with
   | none => true
   | some pid => violation.policyId == pid)

/-- Index of the first step of a list bearing a given id. -/
def idxOf? (sid : String) : List PlaybookStep → Option Nat
  | [] => none
  | s :: rest => if s.id == sid then some 0 else (idxOf? sid rest).map (· + 1)

/-- Index of the step of a playbook bearing a given id. -/
def stepIdx (p : Playbook) (sid : String) : Option Nat := idxOf? sid p.steps

/-- A transition reference out of the step at index i is forward when it
is absent, unresolved, or names a step at a strictly larger index. -/
def targetOk (p : Playbook) (i : Nat) : Option String → Bool
  | none => true
  | some sid =>
    match stepIdx p sid with
    | none => true
    | some j => decide (i < j)

/-- All transitions of the listed steps, numbered from base, are forward. -/
def forwardFrom (p : Playbook) : Nat → List PlaybookStep → Bool
  | _, [] => true
  | i, s :: rest =>
    targetOk p i s.onSuccess && targetOk p i s.onFailure && forwardFrom p (i + 1) rest

/-- Every onSuccess/onFailure reference of the playbook points strictly
forward in the step list (in particular the step graph is acyclic). -/
def forwardOnly (p : Playbook) : Bool := forwardFrom p 0 p.steps

/-- The step walk of a playbook run reaches a terminal state under some
fuel; its negation says the source while loop never exits. -/
def runTerminates (p : Playbook) (v : Violation) (st : SOARState) : Prop :=
  ∃ fuel, (runSteps fuel p v (startStepId p) none st).1 ≠ RunResult.fuelOut

/-- Fuel sufficient to finish the walk from a given current step id, for
a forward-only playbook. -/
def fuelBound (p : Playbook) (cur : Option String) : Nat :=
  match cur with
  | none => 1
  | some sid =>
    match stepIdx p sid with
    | none => 1
    | some i => p.steps.length - i + 1

/-- Sample violation used by the concrete witnesses: critical severity on
a domain asset. -/
def sampleViolation : Violation :=
  { id := "v-1", policyId := "P-1", policyName := "Policy One",
    assetId := "example.com", assetType := "domain",
    assetIdentifier := "example.com", severity := "critical",
    status := "open", title := "T", description := "D",
    detectedAt := 0, updatedAt := 0, resolvedAt := none }

/-- Step configuration with no payload at all. -/
def emptyConfig : StepConfig := ⟨none, none, none, none, none⟩

/-- A notification step whose payload lacks the template: its handler
throws at runtime (TypeError on undefined.replace). -/
def badNotifyStep : PlaybookStep :=
  { id := "notify-broken", name := "Broken Notify", type := "notification",
    config := { emptyConfig with notification := some ⟨"slack", none, ["#sec"]⟩ },
    onSuccess := none, onFailure := none }

/-- A create_incident action step with no transitions. -/
def goodStep : PlaybookStep :=
  { id := "step-create", name := "Create Incident", type := "action",
    config := { emptyConfig with action := some "create_incident" },
    onSuccess := none, onFailure := none }

/-- A notification step that succeeds (well-formed payload). -/
def notifyOkStep : PlaybookStep :=
  { id := "s2", name := "Notify", type := "notification",
    config := { emptyConfig with notification := some ⟨"slack", some "done", []⟩ },
    onSuccess := none, onFailure := none }

/-- A playbook whose single step throws: its run raises. -/
def failingPlaybook : Playbook :=
  { id := "pb-fail", name := "Failing", description := "",
    trigger := ⟨"violation", ⟨none, none, none⟩⟩,
    steps := [badNotifyStep], enabled := true, lastRun := none }

/-- A playbook whose single step creates an incident and succeeds. -/
def succeedingPlaybook : Playbook :=
  { id := "pb-ok", name := "OK", description := "",
    trigger := ⟨"violation", ⟨none, none, none⟩⟩,
    steps := [goodStep], enabled := true, lastRun := none }

/-- A playbook that creates an incident, then throws on the next step. -/
def crashAfterCreatePlaybook : Playbook :=
  { id := "pb-crash", name := "Crash After Create", description := "",
    trigger := ⟨"violation", ⟨none, none, none⟩⟩,
    steps := [{ goodStep with onSuccess := some "notify-broken" }, badNotifyStep],
    enabled := true, lastRun := none }

/-- A playbook whose single step transitions to itself on success. -/
def loopStep : PlaybookStep :=
  { id := "loop", name := "Loop", type := "notification",
    config := { emptyConfig with notification := some ⟨"slack", some "ping", []⟩ },
    onSuccess := some "loop", onFailure := none }

/-- The cyclic playbook: its run never reaches a terminal state. -/
def cyclePlaybook : Playbook :=
  { id := "pb-cycle", name := "Cycle", description := "",
    trigger := ⟨"violation", ⟨none, none, none⟩⟩,
    steps := [loopStep], enabled := true, lastRun := none }

/-- A forward-only two-step playbook (create, then notify). -/
def fwdPlaybook : Playbook :=
  { id := "pb-fwd", name := "Forward", description := "",
    trigger := ⟨"violation", ⟨none, none, none⟩⟩,
    steps := [{ goodStep with onSuccess := some "s2" }, notifyOkStep],
    enabled := true, lastRun := none }

/-- A playbook whose trigger carries an empty-string policyId. -/
def emptyPolicyPb : Playbook :=
  { id := "pb-emptypid", name := "", description := "",
    trigger := ⟨"violation", ⟨none, none, some ""⟩⟩,
    steps := [], enabled := true, lastRun := none }

/-- A playbook triggering on severity critical and asset type ip only. -/
def critIpPb : Playbook :=
  { id := "pb-critip", name := "", description := "",
    trigger := ⟨"violation", ⟨some ["critical"], some ["ip"], none⟩⟩,
    steps := [], enabled := true, lastRun := none }

/-- The empty SOAR state. -/
def st0 : SOARState := ⟨[], [], [], 0, 0⟩

/-- A state registering the failing playbook then the succeeding one. -/
def stFailGood : SOARState :=
  { st0 with playbooks := [failingPlaybook, succeedingPlaybook] }

/-- A state registering only the failing playbook. -/
def stFailOnly : SOARState := { st0 with playbooks := [failingPlaybook] }

/-- The incident crashAfterCreatePlaybook creates from sampleViolation out
of the empty state, as built by createIncidentFromViolation. -/
def c9Inc : Incident :=
  { id := "uuid-0", title := "T", description := "D", severity := "critical",
    status := "open", priority := some "P1", assignee := none,
    reporter := "ComplianceAgent", violationIds := ["v-1"],
    timeline := [⟨"uuid-1", "created", "Incident created from violation",
                  "ComplianceAgent", 0, none⟩],
    createdAt := 1, updatedAt := 2, resolvedAt := none }

/-- A resolved violation, for the status-transition counterexample. -/
def resolvedViolation : Violation :=
  { sampleViolation with id := "v-res", status := "resolved", resolvedAt := some 50 }

/-- A detector state holding the resolved violation. -/
def detSt : DetectorState := ⟨[("v-res", resolvedViolation)], 100, 0⟩

/-- A detector state holding one open violation, for the amended-claim
witness of the status update. -/
def detStOpen : DetectorState := ⟨[("v-1", sampleViolation)], 100, 0⟩

/-- The update payload of the round-trip claim: status closed only. -/
def closedUpdate : IncidentUpdate := ⟨some "closed", none, none⟩

/-- A SOAR state holding one incident, for the round-trip witness. -/
def stWithIncident : SOARState :=
  { st0 with incidents := [("uuid-0", c9Inc)], clock := 10, nextId := 2 }

/-- A SOAR state with three ledger entries, for the history witness. -/
def stHist : SOARState :=
  { st0 with executionHistory :=
      [⟨"a", 1, "success"⟩, ⟨"b", 2, "failure"⟩, ⟨"c", 3, "success"⟩] }

/-- A condition step on field acknowledged expecting the boolean false. -/
def ackCond : ConditionConfig := ⟨"acknowledged", "equals", JSValue.bool false⟩

/-- A condition step on field acknowledged expecting the string false. -/
def ackStrCond : ConditionConfig := ⟨"acknowledged", "equals", JSValue.str "false"⟩

/-- Condition step carrying ackCond. -/
def ackStep : PlaybookStep :=
  { id := "cond-1", name := "Check Ack", type := "condition",
    config := { emptyConfig with condition := some ackCond },
    onSuccess := none, onFailure := none }

/-- Condition step carrying ackStrCond. -/
def ackStrStep : PlaybookStep :=
  { id := "cond-2", name := "Check Ack Str", type := "condition",
    config := { emptyConfig with condition := some ackStrCond },
    onSuccess := none, onFailure := none }

/-- The state produced by the catch branch of executePlaybook: the clock
advanced past the failure timestamp and a failure ledger entry appended.
Spelled out here so the failure-path theorems can name it. -/
def failState (pid : String) (st : SOARState) : SOARState :=
  { st with
    clock := st.clock + 1
    executionHistory := st.executionHistory ++ [⟨pid, st.clock, "failure"⟩] }

/-- Replacing the value under a key present in an association list makes
lookup of that key return the new value. -/
theorem find?_map_update {α : Type} (k : String) (x : α) :
    ∀ (l : List (String × α)), ((l.find? (fun kv => kv.1 == k)).isSome = true) →
      (((l.map (fun kv => if kv.1 == k then (kv.1, x) else kv)).find?
        (fun kv => kv.1 == k)).map (fun kv => kv.2)) = some x := by
  intro l
  induction l with
  | nil => intro h; simp [List.find?] at h
  | cons a t ih =>
    intro h
    simp only [List.map_cons]
    cases hk : (a.1 == k) with
    | true => simp [List.find?_cons, hk]
    | false =>
      have h2 : (List.find? (fun kv => kv.1 == k) t).isSome = true := by
        rw [List.find?_cons] at h
        simpa [hk] using h
      simpa [List.find?_cons, hk] using ih h2

/-- An incident returned by getIncident is listed by getAllIncidents. -/
theorem getIncident_mem_getAll (id : String) (st : SOARState) (inc : Incident)
    (h : getIncident id st = some inc) : inc ∈ getAllIncidents st := by
  unfold getIncident at h
  unfold getAllIncidents
  cases hf : st.incidents.find? (fun kv => kv.1 == id) with
  | none => rw [hf] at h; simp at h
  | some kv =>
    rw [hf] at h
    simp at h
    exact h ▸ List.mem_map_of_mem (fun kv => kv.2) (List.mem_of_find?_eq_some hf)

/-- Step handlers never touch the execution ledger or the playbooks map. -/
theorem executeAction_frame (step : PlaybookStep) (violation : Violation)
    (incId : Option String) (st : SOARState) :
    ((executeAction step violation incId st).2).executionHistory = st.executionHistory ∧
    ((executeAction step violation incId st).2).playbooks = st.playbooks := by
  unfold executeAction
  repeat' split <;>
    simp [createIncidentFromViolation, freshUuid, newDate, addIncidentEvent, setIncident]

/-- executeStep never touches the execution ledger or the playbooks map. -/
theorem executeStep_frame (step : PlaybookStep) (violation : Violation)
    (incId : Option String) (st : SOARState) :
    ((executeStep step violation incId st).2).executionHistory = st.executionHistory ∧
    ((executeStep step violation incId st).2).playbooks = st.playbooks := by
  unfold executeStep
  split
  · obtain ⟨h1, h2⟩ := executeAction_frame step violation incId st
    cases hA : executeAction step violation incId st with
    | mk r st1 =>
      rw [hA] at h1 h2
      exact ⟨h1, h2⟩
  · unfold executeNotification
    constructor <;> (repeat' split) <;> rfl
  · exact ⟨rfl, rfl⟩
  · exact ⟨rfl, rfl⟩
  · exact ⟨rfl, rfl⟩
  · exact ⟨rfl, rfl⟩

/-- The step walk never touches the execution ledger or playbooks map. -/
theorem runSteps_frame (p : Playbook) (v : Violation) :
    ∀ (fuel : Nat) (cur inc : Option String) (st : SOARState),
      ((runSteps fuel p v cur inc st).2).executionHistory = st.executionHistory ∧
      ((runSteps fuel p v cur inc st).2).playbooks = st.playbooks := by
  intro fuel
  induction fuel with
  | zero => intro cur inc st; exact ⟨rfl, rfl⟩
  | succ n ih =>
    intro cur inc st
    unfold runSteps
    cases cur with
    | none => exact ⟨rfl, rfl⟩
    | some sid =>
      by_cases hsid : (sid == "") = true
      · simp [hsid]
      · simp only [hsid]
        cases hf : p.steps.find? (fun s => s.id == sid) with
        | none => simp
        | some step =>
          simp only []
          cases hE : executeStep step v inc st with
          | mk r st1 =>
            have hfr := executeStep_frame step v inc st
            rw [hE] at hfr
            cases r with
            | error e => simpa using hfr
            | ok result =>
              simp only []
              have := ih (if result.success then step.onSuccess else step.onFailure)
                (if step.type == "action" && step.config.action == some "create_incident"
                 then result.data else inc) st1
              exact ⟨this.1.trans hfr.1, this.2.trans hfr.2⟩

/-- Running the playbook loop over a concatenation runs the first part,
then the second from the resulting state, concatenating the collected
incidents; divergence anywhere propagates. -/
theorem execLoop_append (fuel : Nat) (v : Violation) :
    ∀ (l1 l2 : List Playbook) (st : SOARState),
      execLoop fuel (l1 ++ l2) v st =
        match execLoop fuel l1 v st with
        | (none, st1) => (none, st1)
        | (some incs1, st1) =>
          match execLoop fuel l2 v st1 with
          | (none, st2) => (none, st2)
          | (some incs2, st2) => (some (incs1 ++ incs2), st2) := by
  intro l1
  induction l1 with
  | nil =>
    intro l2 st
    simp only [List.nil_append, execLoop]
    cases h2 : execLoop fuel l2 v st with
    | mk r st2 => cases r <;> simp
  | cons p rest ih =>
    intro l2 st
    simp only [List.cons_append, execLoop]
    by_cases hen : (!p.enabled) = true
    · simp only [if_pos hen]
      exact ih l2 st
    · simp only [if_neg hen]
      by_cases htr : shouldTrigger p v = true
      · simp only [if_pos htr]
        cases hE : executePlaybook fuel p v st with
        | mk rp st1 =>
          cases rp with
          | none => rfl
          | some inc =>
            simp only [List.append_eq]
            rw [ih l2 st1]
            cases hr : execLoop fuel rest v st1 with
            | mk r1 stA =>
              cases r1 with
              | none => rfl
              | some incs1 =>
                dsimp only
                cases inc with
                | none =>
                  cases h2 : execLoop fuel l2 v stA with
                  | mk r2 stB => cases r2 <;> (dsimp only; rw [h2]; try rfl)
                | some i =>
                  cases h2 : execLoop fuel l2 v stA with
                  | mk r2 stB => cases r2 <;> (dsimp only; rw [h2]; try rfl)
      · simp only [if_neg htr]
        exact ih l2 st

/-- When no step bears the id, find? misses. -/
theorem idxOf?_none_find? (sid : String) :
    ∀ (l : List PlaybookStep), idxOf? sid l = none →
      l.find? (fun s => s.id == sid) = none := by
  intro l
  induction l with
  | nil => intro _; rfl
  | cons s rest ih =>
    intro h
    unfold idxOf? at h
    cases hk : (s.id == sid) with
    | true => rw [hk] at h; simp at h
    | false =>
      rw [hk] at h
      simp at h
      simp only [List.find?_cons, hk]
      exact ih h

/-- When a step bears the id, its index is valid and find? returns the
step stored at that index. -/
theorem idxOf?_some_find? (sid : String) :
    ∀ (l : List PlaybookStep) (i : Nat), idxOf? sid l = some i →
      i < l.length ∧ l.find? (fun s => s.id == sid) = l.get? i := by
  intro l
  induction l with
  | nil => intro i h; simp [idxOf?] at h
  | cons s rest ih =>
    intro i h
    unfold idxOf? at h
    cases hk : (s.id == sid) with
    | true =>
      rw [hk] at h
      simp at h
      subst h
      constructor
      · simp
      · rw [List.find?_cons, hk]
        rfl
    | false =>
      rw [hk] at h
      simp only [Bool.false_eq_true, if_false, Option.map_eq_some'] at h
      obtain ⟨j, hj, hij⟩ := h
      subst hij
      obtain ⟨hlt, hfind⟩ := ih j hj
      constructor
      · simpa using Nat.succ_lt_succ hlt
      · simp only [List.find?_cons, hk, List.get?_cons_succ]
        exact hfind

/-- Extracting the per-step forward condition from forwardFrom. -/
theorem forwardFrom_get (p : Playbook) :
    ∀ (l : List PlaybookStep) (base : Nat), forwardFrom p base l = true →
      ∀ (j : Nat) (s : PlaybookStep), l.get? j = some s →
        targetOk p (base + j) s.onSuccess = true ∧
        targetOk p (base + j) s.onFailure = true := by
  intro l
  induction l with
  | nil => intro base h j s hg; simp at hg
  | cons a t ih =>
    intro base h j s hg
    rw [show forwardFrom p base (a :: t)
        = (targetOk p base a.onSuccess && targetOk p base a.onFailure
            && forwardFrom p (base + 1) t) from rfl] at h
    simp only [Bool.and_eq_true] at h
    obtain ⟨⟨h1, h2⟩, h3⟩ := h
    cases j with
    | zero =>
      simp at hg
      subst hg
      simpa using ⟨h1, h2⟩
    | succ j1 =>
      simp only [List.get?_cons_succ] at hg
      have hrec := ih (base + 1) h3 j1 s hg
      have e : base + (j1 + 1) = (base + 1) + j1 := by omega
      rw [e]
      exact hrec

/-- A forward-only playbook finishes its step walk within any fuel above
the bound of the current step. -/
theorem runSteps_no_fuelOut (p : Playbook) (v : Violation)
    (hfwd : forwardOnly p = true) :
    ∀ (fuel : Nat) (cur inc : Option String) (st : SOARState),
      fuelBound p cur ≤ fuel →
      (runSteps fuel p v cur inc st).1 ≠ RunResult.fuelOut := by
  intro fuel
  induction fuel with
  | zero =>
    intro cur inc st hb
    exfalso
    cases cur with
    | none => simp [fuelBound] at hb
    | some sid =>
      cases hidx : stepIdx p sid with
      | none => simp only [fuelBound, hidx] at hb; omega
      | some i => simp only [fuelBound, hidx] at hb; omega
  | succ n ih =>
    intro cur inc st hb
    cases cur with
    | none => simp [runSteps]
    | some sid =>
      simp only [runSteps]
      by_cases hsid : (sid == "") = true
      · simp [hsid]
      · rw [if_neg hsid]
        cases hf : p.steps.find? (fun s => s.id == sid) with
        | none => simp
        | some step =>
          dsimp only
          cases hidx : stepIdx p sid with
          | none =>
            exfalso
            have hn := idxOf?_none_find? sid p.steps hidx
            rw [hf] at hn
            exact Option.noConfusion hn
          | some i =>
            obtain ⟨hilt, hfind⟩ := idxOf?_some_find? sid p.steps i hidx
            have hstep : p.steps.get? i = some step := by rw [← hfind]; exact hf
            have hb2 : p.steps.length - i ≤ n := by
              simp only [fuelBound, hidx] at hb
              omega
            have hok := forwardFrom_get p p.steps 0 hfwd i step hstep
            rw [Nat.zero_add] at hok
            cases hE : executeStep step v inc st with
            | mk r st1 =>
              cases r with
              | error e => simp
              | ok result =>
                dsimp only
                apply ih
                have htgt : targetOk p i
                    (if result.success then step.onSuccess else step.onFailure) = true := by
                  cases hres : result.success with
                  | true => simpa using hok.1
                  | false => simpa using hok.2
                cases hnext : (if result.success then step.onSuccess else step.onFailure) with
                | none =>
                  simp only [fuelBound]
                  omega
                | some sid2 =>
                  rw [hnext] at htgt
                  unfold targetOk at htgt
                  dsimp only at htgt
                  cases hidx2 : stepIdx p sid2 with
                  | none =>
                    simp only [fuelBound, hidx2]
                    omega
                  | some j =>
                    rw [hidx2] at htgt
                    simp at htgt
                    obtain ⟨hjlt, hfj⟩ := idxOf?_some_find? sid2 p.steps j hidx2
                    simp only [fuelBound, hidx2]
                    omega

/-- The fuel bound of the first step is at most the step count plus one. -/
theorem fuelBound_start (p : Playbook) :
    fuelBound p (startStepId p) ≤ p.steps.length + 1 := by
  unfold startStepId
  cases hs : p.steps with
  | nil => simp [fuelBound]
  | cons s rest =>
    simp only [List.head?_cons, Option.map_some']
    have hidx : stepIdx p s.id = some 0 := by
      unfold stepIdx
      rw [hs]
      unfold idxOf?
      simp
    simp only [fuelBound, hidx]
    rw [hs]
    omega

/-- The step walk of the cyclic sample playbook never exits: each pass
through the single step succeeds and transitions back to it. -/
theorem cycle_spins (v : Violation) :
    ∀ (fuel : Nat) (st : SOARState),
      runSteps fuel cyclePlaybook v (some "loop") none st = (RunResult.fuelOut, st) := by
  intro fuel
  induction fuel with
  | zero => intro st; rfl
  | succ n ih =>
    intro st
    rw [show runSteps (n + 1) cyclePlaybook v (some "loop") none st
        = runSteps n cyclePlaybook v (some "loop") none st from rfl]
    exact ih st

/-- C2: for every cached certificate fact, detection yields an expiry
violation of severity critical when daysUntilExpiry is at most 7, high in
(7,30], medium in (30,60], and none above 60; an invalid certificate
independently yields an additional critical violation, so both can fire
for the same asset. -/
theorem checkCertificate_severity_spec (cert : CertificateInfo)
    (policies : List Policy) (st : DetectorState) :
    ((checkCertificate cert policies st).1).map Violation.severity =
      (if cert.daysUntilExpiry ≤ 7 then ["critical"]
       else if cert.daysUntilExpiry ≤ 30 then ["high"]
       else if cert.daysUntilExpiry ≤ 60 then ["medium"]
       else []) ++
      (if cert.isValid then [] else ["critical"]) := by
  unfold checkCertificate checkCertificateExpiry
  by_cases h7 : cert.daysUntilExpiry ≤ 7
  · by_cases hv : cert.isValid <;> simp [h7, hv]
  · by_cases h30 : cert.daysUntilExpiry ≤ 30
    · by_cases hv : cert.isValid <;> simp [h7, h30, hv]
    · by_cases h60 : cert.daysUntilExpiry ≤ 60
      · by_cases hv : cert.isValid <;> simp [h7, h30, h60, hv]
      · by_cases hv : cert.isValid <;> simp [h7, h30, h60, hv]

/-- C8: for a positive limit, getExecutionHistory returns the suffix of
the most recent min(limit, length) ledger entries in order; for limit 0
it returns the entire ledger (slice(-0) is slice(0)); the JS default
limit is 10. -/
theorem getExecutionHistory_spec (st : SOARState) (n : Nat) (h : 0 < n) :
    st.executionHistory.take (st.executionHistory.length - n)
        ++ getExecutionHistory st n = st.executionHistory ∧
    (getExecutionHistory st n).length = min n st.executionHistory.length ∧
    getExecutionHistory st 0 = st.executionHistory ∧
    getExecutionHistoryDefault st = getExecutionHistory st 10 := by
  have hne : (n == 0) = false := by
    simp only [beq_eq_false_iff_ne, ne_eq]
    omega
  refine ⟨?_, ?_, rfl, rfl⟩
  · simp only [getExecutionHistory, hne, Bool.false_eq_true, if_false]
    exact List.take_append_drop _ _
  · simp only [getExecutionHistory, hne, Bool.false_eq_true, if_false,
      List.length_drop]
    omega

/-- Witness for C8 at a three-entry ledger and limit 2. -/
theorem getExecutionHistory_spec_witness :
    0 < 2 ∧
    (stHist.executionHistory.take (stHist.executionHistory.length - 2)
        ++ getExecutionHistory stHist 2 = stHist.executionHistory ∧
     (getExecutionHistory stHist 2).length = min 2 stHist.executionHistory.length ∧
     getExecutionHistory stHist 0 = stHist.executionHistory ∧
     getExecutionHistoryDefault stHist = getExecutionHistory stHist 10) :=
  ⟨by decide, getExecutionHistory_spec stHist 2 (by decide)⟩

/-- C10: a condition step on field acknowledged, executed with no bound
incident, resolves the value to the boolean false, and succeeds exactly
when the configured literal is the boolean false under strict equality;
the string value false in particular does not match. -/
theorem executeCondition_acknowledged_unbound (step : PlaybookStep)
    (v : Violation) (st : SOARState) (cond : ConditionConfig)
    (hc : step.config.condition = some cond)
    (hf : cond.field = "acknowledged") :
    executeCondition step v none st
      = { success := decide (JSValue.bool false = cond.value), data := none } ∧
    (decide (JSValue.bool false = cond.value) = true ↔
      cond.value = JSValue.bool false) ∧
    (cond.value = JSValue.str "false" →
      (executeCondition step v none st).success = false) := by
  have h1 : executeCondition step v none st
      = { success := decide (JSValue.bool false = cond.value), data := none } := by
    unfold executeCondition
    rw [hc]
    dsimp only
    rw [hf]
    rfl
  refine ⟨h1, by simp [decide_eq_true_eq, eq_comm], ?_⟩
  intro he
  rw [h1, he]
  decide

/-- Witness for C10: the boolean-false literal matches, the string-false
literal does not. -/
theorem executeCondition_acknowledged_unbound_witness :
    (executeCondition ackStep sampleViolation none st0).success = true ∧
    (executeCondition ackStrStep sampleViolation none st0).success = false := by
  have h1 := executeCondition_acknowledged_unbound ackStep sampleViolation st0
    ackCond rfl rfl
  have h2 := executeCondition_acknowledged_unbound ackStrStep sampleViolation st0
    ackStrCond rfl rfl
  exact ⟨by rw [h1.1]; decide, h2.2.2 rfl⟩

/-- C3 counterexample: a trigger whose policyId is the empty string is
skipped by the JS falsiness guard, so shouldTrigger fires although the
policyId is present and differs from the policyId of the violation,
refuting the claimed conjunction as stated. -/
theorem shouldTrigger_policyId_empty_cex :
    shouldTrigger emptyPolicyPb sampleViolation = true ∧
    shouldTriggerSpec emptyPolicyPb sampleViolation = false ∧
    emptyPolicyPb.trigger.conditions.policyId = some "" ∧
    sampleViolation.policyId = "P-1" := by decide

/-- C3 amended: for a violation-type trigger, shouldTrigger is true
exactly when the three predicates hold conjointly, where the severity and
asset-type sets are vacuous when absent or empty, and the policyId is
vacuous when absent or the empty string, and otherwise must equal the
policyId of the violation exactly. -/
theorem shouldTrigger_conjunctive (p : Playbook) (v : Violation)
    (h : p.trigger.type = "violation") :
    shouldTrigger p v = true ↔
      ((match p.trigger.conditions.severity with
        | none => True
        | some l => l = [] ∨ v.severity ∈ l) ∧
       (match p.trigger.conditions.assetType with
        | none => True
        | some l => l = [] ∨ v.assetType ∈ l) ∧
       (match p.trigger.conditions.policyId with
        | none => True
        | some pid => pid = "" ∨ v.policyId = pid)) := by
  have hsev : ((match p.trigger.conditions.severity with
      | none => true
      | some l => if l.length > 0 then l.contains v.severity else true) = true) ↔
      (match p.trigger.conditions.severity with
       | none => True
       | some l => l = [] ∨ v.severity ∈ l) := by
    cases hs : p.trigger.conditions.severity with
    | none => simp
    | some l => cases l with
      | nil => simp
      | cons a t => simp
  have hasset : ((match p.trigger.conditions.assetType with
      | none => true
      | some l => if l.length > 0 then l.contains v.assetType else true) = true) ↔
      (match p.trigger.conditions.assetType with
       | none => True
       | some l => l = [] ∨ v.assetType ∈ l) := by
    cases ha : p.trigger.conditions.assetType with
    | none => simp
    | some l => cases l with
      | nil => simp
      | cons a t => simp
  have hpol : ((match p.trigger.conditions.policyId with
      | none => true
      | some pid => if pid != "" then v.policyId == pid else true) = true) ↔
      (match p.trigger.conditions.policyId with
       | none => True
       | some pid => pid = "" ∨ v.policyId = pid) := by
    cases hp : p.trigger.conditions.policyId with
    | none => simp
    | some pid =>
      by_cases hpe : pid = ""
      · subst hpe; simp
      · simp [hpe]
  unfold shouldTrigger
  rw [h]
  dsimp only
  simp only [bne_self_eq_false, Bool.false_eq_true, if_false,
    Bool.and_eq_true, and_assoc]
  exact and_congr hsev (and_congr hasset hpol)

/-- Witness for C3: a playbook with severity critical and asset type ip
does not trigger for a critical domain violation. -/
theorem shouldTrigger_conjunctive_witness :
    shouldTrigger critIpPb sampleViolation = false ∧
    critIpPb.trigger.type = "violation" := by
  have h := shouldTrigger_conjunctive critIpPb sampleViolation rfl
  refine ⟨?_, rfl⟩
  have hne : ¬ (shouldTrigger critIpPb sampleViolation = true) := by
    rw [h]
    intro hcon
    have ha := hcon.2.1
    simp [critIpPb, sampleViolation] at ha
  exact Bool.eq_false_iff.mpr hne

/-- C5 counterexample: a resolved violation is moved back to open by
updateViolationStatus, refuting forward-only transitions as claimed. -/
theorem updateViolationStatus_backward_cex :
    (getViolation "v-res" detSt).map Violation.status = some "resolved" ∧
    ((updateViolationStatus "v-res" "open" detSt).1).map Violation.status
      = some "open" ∧
    getViolation "v-res" (updateViolationStatus "v-res" "open" detSt).2
      = (updateViolationStatus "v-res" "open" detSt).1 := by decide

/-- C5 amended: updateViolationStatus performs any requested transition
unconditionally, including backward ones; whenever the new status is
resolved a resolvedAt timestamp is stamped, and otherwise resolvedAt is
untouched. -/
theorem updateViolationStatus_spec (id status : String) (st : DetectorState)
    (v0 : Violation) (hfind : getViolation id st = some v0) (hkey : v0.id = id) :
    ((updateViolationStatus id status st).1).map Violation.status = some status ∧
    (status = "resolved" →
      ((updateViolationStatus id status st).1).bind Violation.resolvedAt
        = some (st.clock + 1)) ∧
    (status ≠ "resolved" →
      ((updateViolationStatus id status st).1).bind Violation.resolvedAt
        = v0.resolvedAt) ∧
    getViolation id (updateViolationStatus id status st).2
      = (updateViolationStatus id status st).1 := by
  have hSome : (st.violations.find? (fun kv => kv.1 == id)).isSome = true := by
    unfold getViolation at hfind
    cases hf : st.violations.find? (fun kv => kv.1 == id) with
    | none => rw [hf] at hfind; simp at hfind
    | some kv => simp [hf]
  by_cases hres : status = "resolved"
  · subst hres
    have heq : updateViolationStatus id "resolved" st
        = (some { v0 with status := "resolved", updatedAt := st.clock, resolvedAt := some (st.clock + 1) },
           dSetViolation { v0 with status := "resolved", updatedAt := st.clock, resolvedAt := some (st.clock + 1) }
             { st with clock := st.clock + 1 + 1 }) := by
      unfold updateViolationStatus
      rw [hfind]
      simp [dNewDate]
    rw [heq]
    refine ⟨by simp, fun _ => by simp, fun hne => absurd rfl hne, ?_⟩
    unfold getViolation dSetViolation
    dsimp only
    rw [hkey]
    exact find?_map_update id _ st.violations hSome
  · have hbe : (status == "resolved") = false := by
      simpa using hres
    have heq : updateViolationStatus id status st
        = (some { v0 with status := status, updatedAt := st.clock },
           dSetViolation { v0 with status := status, updatedAt := st.clock }
             { st with clock := st.clock + 1 }) := by
      unfold updateViolationStatus
      rw [hfind]
      simp [dNewDate, hbe]
    rw [heq]
    refine ⟨by simp, fun he => absurd he hres, fun _ => by simp, ?_⟩
    unfold getViolation dSetViolation
    dsimp only
    rw [hkey]
    exact find?_map_update id _ st.violations hSome

/-- Witness for C5 at a stored open violation resolved by the update. -/
theorem updateViolationStatus_spec_witness :
    (((updateViolationStatus "v-1" "resolved" detStOpen).1).map Violation.status
      = some "resolved") ∧
    ("resolved" = "resolved" →
      ((updateViolationStatus "v-1" "resolved" detStOpen).1).bind Violation.resolvedAt
        = some (detStOpen.clock + 1)) ∧
    ("resolved" ≠ "resolved" →
      ((updateViolationStatus "v-1" "resolved" detStOpen).1).bind Violation.resolvedAt
        = sampleViolation.resolvedAt) ∧
    getViolation "v-1" (updateViolationStatus "v-1" "resolved" detStOpen).2
      = (updateViolationStatus "v-1" "resolved" detStOpen).1 :=
  updateViolationStatus_spec "v-1" "resolved" detStOpen sampleViolation rfl rfl

/-- C7: updateIncident with payload status closed, followed by
getIncident, returns the incident with status closed and an updatedAt
strictly above its prior value, and the timeline is unchanged (no event
appended). -/
theorem updateIncident_status_roundtrip (id : String) (st : SOARState)
    (inc0 : Incident)
    (hfind : getIncident id st = some inc0)
    (hkey : inc0.id = id)
    (hclock : inc0.updatedAt < st.clock) :
    (updateIncident id closedUpdate st).1
      = some { inc0 with status := "closed", updatedAt := st.clock } ∧
    getIncident id (updateIncident id closedUpdate st).2
      = (updateIncident id closedUpdate st).1 ∧
    ((updateIncident id closedUpdate st).1).map Incident.timeline
      = some inc0.timeline ∧
    inc0.updatedAt < st.clock := by
  have hSome : (st.incidents.find? (fun kv => kv.1 == id)).isSome = true := by
    unfold getIncident at hfind
    cases hf : st.incidents.find? (fun kv => kv.1 == id) with
    | none => rw [hf] at hfind; simp at hfind
    | some kv => simp [hf]
  have heq : updateIncident id closedUpdate st
      = (some { inc0 with status := "closed", updatedAt := st.clock },
         setIncident { inc0 with status := "closed", updatedAt := st.clock }
           { st with clock := st.clock + 1 }) := by
    unfold updateIncident
    rw [hfind]
    simp [newDate, applyUpdate, closedUpdate]
  rw [heq]
  refine ⟨rfl, ?_, by simp, hclock⟩
  unfold getIncident setIncident
  dsimp only
  rw [hkey]
  exact find?_map_update id _ st.incidents hSome

/-- Witness for C7 at a stored incident with updatedAt 2 and clock 10. -/
theorem updateIncident_status_roundtrip_witness :
    ((updateIncident "uuid-0" closedUpdate stWithIncident).1
      = some { c9Inc with status := "closed", updatedAt := stWithIncident.clock }) ∧
    getIncident "uuid-0" (updateIncident "uuid-0" closedUpdate stWithIncident).2
      = (updateIncident "uuid-0" closedUpdate stWithIncident).1 ∧
    ((updateIncident "uuid-0" closedUpdate stWithIncident).1).map Incident.timeline
      = some c9Inc.timeline ∧
    c9Inc.updatedAt < stWithIncident.clock :=
  updateIncident_status_roundtrip "uuid-0" stWithIncident c9Inc rfl rfl (by decide)

/-- C6 counterexample: a playbook run that raises appends a failure
ledger entry (the attempt is recorded) yet leaves the stored playbook,
including its absent lastRun, unchanged — refuting the claim that lastRun
is updated after a failed attempt. -/
theorem executePlaybook_lastRun_cex :
    (runSteps 3 failingPlaybook sampleViolation (startStepId failingPlaybook)
        none stFailOnly).1 = RunResult.raised ∧
    (executePlaybook 3 failingPlaybook sampleViolation stFailOnly).1 = some none ∧
    ((executePlaybook 3 failingPlaybook sampleViolation stFailOnly).2).executionHistory
      = [⟨"pb-fail", 0, "failure"⟩] ∧
    getPlaybook "pb-fail"
        ((executePlaybook 3 failingPlaybook sampleViolation stFailOnly).2)
      = some failingPlaybook ∧
    failingPlaybook.lastRun = none := by decide

/-- C6 amended: the lastRun stamp of the playbook is written only when
the step walk exits without an uncaught error; a run that raises leaves
the playbooks map untouched (only the failure ledger entry records the
attempt). -/
theorem executePlaybook_lastRun_spec (fuel : Nat) (p : Playbook)
    (v : Violation) (st : SOARState) :
    ((executePlaybook fuel p v st).2).playbooks =
      (match (runSteps fuel p v (startStepId p) none st).1 with
       | RunResult.ok _ =>
         setLastRun p.id (((runSteps fuel p v (startStepId p) none st).2).clock + 1)
           st.playbooks
       | RunResult.raised => st.playbooks
       | RunResult.fuelOut => st.playbooks) := by
  unfold executePlaybook
  cases hR : runSteps fuel p v (startStepId p) none st with
  | mk r st1 =>
    have hfr := (runSteps_frame p v fuel (startStepId p) none st).2
    rw [hR] at hfr
    cases r with
    | ok inc =>
      dsimp only [newDate]
      rw [hfr]
    | raised => exact hfr
    | fuelOut => exact hfr

/-- C4 counterexample: the run of the cyclic sample playbook never
reaches a terminal state, refuting termination for cyclic step graphs. -/
theorem executePlaybook_cycle_diverges :
    ¬ runTerminates cyclePlaybook sampleViolation st0 := by
  intro h
  obtain ⟨fuel, hne⟩ := h
  apply hne
  rw [show startStepId cyclePlaybook = some "loop" from rfl]
  rw [cycle_spins sampleViolation fuel st0]

/-- C4 amended: a run of any playbook whose onSuccess/onFailure
references all point strictly forward in the step list terminates in a
terminal state given fuel above the step count, and a transition naming a
step id not present in the playbook ends the run (returning the bound
incident) rather than raising. -/
theorem executePlaybook_forward_terminates (p : Playbook) (v : Violation)
    (st st2 : SOARState) (fuel : Nat) (sid : String) (inc : Option String)
    (hfwd : forwardOnly p = true) (hfuel : p.steps.length < fuel)
    (hmiss : p.steps.find? (fun s => s.id == sid) = none) :
    (executePlaybook fuel p v st).1 ≠ none ∧
    runSteps fuel p v (some sid) inc st2 = (RunResult.ok inc, st2) := by
  constructor
  · have hnf := runSteps_no_fuelOut p v hfwd fuel (startStepId p) none st
      (le_trans (fuelBound_start p) hfuel)
    unfold executePlaybook
    cases hR : runSteps fuel p v (startStepId p) none st with
    | mk r st1 =>
      rw [hR] at hnf
      cases r with
      | ok inc2 => simp
      | raised => simp
      | fuelOut => exact absurd rfl hnf
  · cases fuel with
    | zero => omega
    | succ n =>
      simp only [runSteps]
      by_cases hsid : (sid == "") = true
      · simp [hsid]
      · rw [if_neg hsid, hmiss]

/-- Witness for C4: the forward two-step sample playbook terminates with
fuel 3, and a run positioned at an unresolved step id ends cleanly. -/
theorem executePlaybook_forward_terminates_witness :
    (executePlaybook 3 fwdPlaybook sampleViolation st0).1 ≠ none ∧
    runSteps 3 fwdPlaybook sampleViolation (some "ghost") none st0
      = (RunResult.ok none, st0) :=
  executePlaybook_forward_terminates fwdPlaybook sampleViolation st0 st0 3 "ghost"
    none (by decide) (by decide) (by decide)

/-- C1: when the run of one registered, enabled, triggered playbook
raises, the error is caught at that playbook boundary: the run returns
null, a failure entry for that playbook is appended to the ledger, and
executePlaybooks continues exactly as the loop over the remaining
playbooks from the post-failure state, collecting their incidents after
those already collected; executePlaybooks itself is a total function of
the model and so never propagates the error. -/
theorem executePlaybooks_failure_isolation
    (fuel : Nat) (l1 l2 : List Playbook) (bad : Playbook) (v : Violation)
    (st st1 : SOARState) (incs1 : List String)
    (hpbs : st.playbooks = l1 ++ bad :: l2)
    (h1 : execLoop fuel l1 v st = (some incs1, st1))
    (hen : bad.enabled = true)
    (htr : shouldTrigger bad v = true)
    (hraise : (runSteps fuel bad v (startStepId bad) none st1).1
      = RunResult.raised) :
    (executePlaybook fuel bad v st1).1 = some none ∧
    ((executePlaybook fuel bad v st1).2).executionHistory
      = st1.executionHistory
        ++ [⟨bad.id, ((runSteps fuel bad v (startStepId bad) none st1).2).clock,
             "failure"⟩] ∧
    executePlaybooks fuel v st
      = (match execLoop fuel l2 v ((executePlaybook fuel bad v st1).2) with
         | (none, st3) => (none, st3)
         | (some incs2, st3) => (some (incs1 ++ incs2), st3)) := by
  cases hR : runSteps fuel bad v (startStepId bad) none st1 with
  | mk r stR =>
    rw [hR] at hraise
    dsimp only at hraise
    subst hraise
    have hhist := (runSteps_frame bad v fuel (startStepId bad) none st1).1
    rw [hR] at hhist
    have hexec : executePlaybook fuel bad v st1
        = (some none, failState bad.id stR) := by
      unfold executePlaybook failState
      rw [hR]
      simp [newDate]
    refine ⟨by rw [hexec], ?_, ?_⟩
    · rw [hexec]
      dsimp only at hhist ⊢
      unfold failState
      dsimp only
      rw [hhist]
    · unfold executePlaybooks
      rw [hpbs, execLoop_append fuel v l1 (bad :: l2) st, h1]
      dsimp only
      simp only [execLoop, hen, htr, Bool.not_true, Bool.false_eq_true, if_false,
        if_true]
      rw [hexec]
      dsimp only
      cases hL2 : execLoop fuel l2 v (failState bad.id stR) with
      | mk r2 stC => cases r2 <;> rfl

/-- Witness for C1: the failing playbook is followed by a succeeding one
in the same call; the failing run returns null and the subsequent
playbook still runs and contributes its created incident. -/
theorem executePlaybooks_failure_isolation_witness :
    (executePlaybook 5 failingPlaybook sampleViolation stFailGood).1 = some none ∧
    (executePlaybooks 5 sampleViolation stFailGood).1 = some ["uuid-0"] := by
  have h := executePlaybooks_failure_isolation 5 [] [succeedingPlaybook]
    failingPlaybook sampleViolation stFailGood stFailGood [] rfl rfl rfl rfl rfl
  refine ⟨h.1, ?_⟩
  rw [h.2.2]
  decide

/-- C9: an incident created during a playbook run (absent before the run,
present at the point the run raises) survives the failure: the run
returns null and the failure is recorded in the ledger, yet getIncident
still returns the incident and getAllIncidents lists it — incident
creation is never rolled back. -/
theorem incident_survives_run_failure (fuel : Nat) (p : Playbook)
    (v : Violation) (st : SOARState) (iid : String) (inc : Incident)
    (hraise : (runSteps fuel p v (startStepId p) none st).1 = RunResult.raised)
    (_hnew : getIncident iid st = none)
    (hmade : getIncident iid ((runSteps fuel p v (startStepId p) none st).2)
      = some inc) :
    (executePlaybook fuel p v st).1 = some none ∧
    getIncident iid ((executePlaybook fuel p v st).2) = some inc ∧
    inc ∈ getAllIncidents ((executePlaybook fuel p v st).2) ∧
    ((executePlaybook fuel p v st).2).executionHistory
      = st.executionHistory
        ++ [⟨p.id, ((runSteps fuel p v (startStepId p) none st).2).clock,
             "failure"⟩] := by
  cases hR : runSteps fuel p v (startStepId p) none st with
  | mk r stR =>
    rw [hR] at hraise hmade
    dsimp only at hraise hmade
    subst hraise
    have hhist := (runSteps_frame p v fuel (startStepId p) none st).1
    rw [hR] at hhist
    have hexec : executePlaybook fuel p v st
        = (some none, failState p.id stR) := by
      unfold executePlaybook failState
      rw [hR]
      simp [newDate]
    have hgetB : getIncident iid (failState p.id stR) = some inc := by
      unfold getIncident at hmade
      unfold getIncident failState
      dsimp only
      exact hmade
    refine ⟨by rw [hexec], ?_, ?_, ?_⟩
    · rw [hexec]
      exact hgetB
    · rw [hexec]
      exact getIncident_mem_getAll iid _ inc hgetB
    · rw [hexec]
      dsimp only at hhist ⊢
      unfold failState
      dsimp only
      rw [hhist]

/-- Witness for C9: the crash-after-create playbook creates its incident,
then raises on the broken notification step; the incident is still
registered afterwards. -/
theorem incident_survives_run_failure_witness :
    (executePlaybook 5 crashAfterCreatePlaybook sampleViolation st0).1
      = some none ∧
    getIncident "uuid-0"
        ((executePlaybook 5 crashAfterCreatePlaybook sampleViolation st0).2)
      = some c9Inc ∧
    c9Inc ∈ getAllIncidents
        ((executePlaybook 5 crashAfterCreatePlaybook sampleViolation st0).2) ∧
    ((executePlaybook 5 crashAfterCreatePlaybook sampleViolation st0).2).executionHistory
      = st0.executionHistory
        ++ [⟨"pb-crash", ((runSteps 5 crashAfterCreatePlaybook sampleViolation
              (startStepId crashAfterCreatePlaybook) none st0).2).clock,
             "failure"⟩] :=
  incident_survives_run_failure 5 crashAfterCreatePlaybook sampleViolation st0
    "uuid-0" c9Inc rfl rfl rfl
